import Mathlib

/-!
Shallow embedding of `rasa/core/frames.py`: the `Frame` and `FrameSet` data
model and the `RuleBasedFrameTracker` per-turn decision procedure.

Modelling conventions:
* Python slot values are modelled by `Value` (strings for slot contents, ints
  for the frame index stored under the reserved "ref" key).
* Timestamps are Python floats used only through equality and order; they are
  modelled as `Nat`.
* Python exceptions are modelled with `Except PyErr`; `AttributeError`,
  `TypeError`, `IndexError` and `KeyError` are the kinds the embedded code can
  raise.  Where a claim needs the object state left behind by a raising
  method, the operation returns the error together with that state
  (`ActivateResult`).
* `Frame` and `FrameSet` subclass `dict` in the source.  `FrameSet.__init__`
  calls `dict.__init__(self, init_slots=..., created=...)`, so the mapping
  carried by every `FrameSet` instance has exactly the keys "init_slots" and
  "created", and no later code writes to that mapping.  `dict` defines
  `__iter__` over keys and `FrameSet` does not override it, so iterating a
  FrameSet - `enumerate(tracker.frames)` and `sorted(tracker.frames, ...)` -
  yields those two key strings, not the frames.  The inert payload itself is
  never re-read, so it is not stored in the record; the iteration behaviour is
  captured by `FrameSet.iterKeys`.  The payload `Frame` carries is likewise
  inert (`items` and `__getitem__` are overridden to go through `slots`).
* `FrameSet.reset` sets the active index to None; no claim exercises the
  reset state, so `current_frame_idx` is modelled as a plain `Nat`.
-/

namespace RasaFrames

/-- Python slot values as the claims use them: strings for slot contents and
ints for the frame index stored under the reserved "ref" key. -/
inductive Value where
  | str : String → Value
  | int : Int → Value
  deriving DecidableEq, Repr

/-- The two fields of the external Slot collaborator that frames.py reads:
`slot.value` (possibly None) and `slot.frame_slot`. -/
structure Slot where
  value : Option Value
  frame_slot : Bool
  deriving DecidableEq, Repr

/-- Exception kinds the embedded code can raise. -/
inductive PyErr where
  | attributeError
  | typeError
  | indexError
  | keyError
  deriving DecidableEq, Repr

/-- A Python object reaching `get_framed_slots`: either a genuine Slot object
or a plain value (`handle_inform` passes an already-projected mapping, whose
values are plain values, back into `add_frame`). -/
inductive PyObj where
  | slotObj : Slot → PyObj
  | rawVal : Value → PyObj
  deriving DecidableEq, Repr

/-- Attribute access `obj.frame_slot`: only Slot objects have it; on a plain
value it raises AttributeError. -/
def PyObj.attrFrameSlot : PyObj → Except PyErr Bool
  | .slotObj s => .ok s.frame_slot
  | .rawVal _ => .error .attributeError

/-- Attribute access `obj.value`: only Slot objects have it. -/
def PyObj.attrValue : PyObj → Except PyErr (Option Value)
  | .slotObj s => .ok s.value
  | .rawVal _ => .error .attributeError

/-- Attribute access `v.value` on a plain slot value (a str or int): raises
AttributeError.  `handle_act_with_ref` evaluates `slot.value` where `slot` is
already the projected plain value. -/
def Value.attrValue : Value → Except PyErr Value
  | _ => .error .attributeError

/-- Indexing a Python str with a str key, as in `"created"[key]`: raises
TypeError (string indices must be integers). -/
def strGetItem (_s : String) (_key : String) : Except PyErr Value :=
  .error .typeError

/-- Attribute access `s.last_active` on a str: raises AttributeError. -/
def strAttrLastActive (_s : String) : Except PyErr Nat :=
  .error .attributeError

/-- FrameSet.get_framed_slots (frames.py lines 84-89): the dict comprehension
keeping `name: slot.value` for the entries with `slot.frame_slot` true and a
present value.  Evaluating the filter attribute-accesses each entry in order,
so a mapping whose values are plain values raises AttributeError at its first
entry. -/
def get_framed_slots : List (String × PyObj) → Except PyErr (List (String × Value))
  | [] => .ok []
  | (name, obj) :: rest => do
    let fs ← obj.attrFrameSlot
    if fs then
      match ← obj.attrValue with
      | some v =>
        let tail ← get_framed_slots rest
        pure ((name, v) :: tail)
      | none => get_framed_slots rest
    else
      get_framed_slots rest

/-- The pure framed-slot projection of a mapping of genuine Slot objects;
`get_framed_slots_lift` proves it agrees with the embedded source function on
such mappings. -/
def projectSlots : List (String × Slot) → List (String × Value)
  | [] => []
  | (name, s) :: rest =>
    if s.frame_slot then
      match s.value with
      | some v => (name, v) :: projectSlots rest
      | none => projectSlots rest
    else
      projectSlots rest

/-- View a mapping of Slot objects as the Python objects handed to
`get_framed_slots`. -/
def liftSlots (l : List (String × Slot)) : List (String × PyObj) :=
  l.map (fun p => (p.1, PyObj.slotObj p.2))

/-- View an already-projected mapping (plain values) as the Python objects
that `handle_inform` hands to `add_frame`. -/
def rawSlots (l : List (String × Value)) : List (String × PyObj) :=
  l.map (fun p => (p.1, PyObj.rawVal p.2))

/-- Python dict lookup with a None default, `d.get(key, None)`. -/
def lookupKey {α : Type} (key : String) : List (String × α) → Option α
  | [] => none
  | (k, v) :: rest => if k = key then some v else lookupKey key rest

/-- Frame (frames.py lines 12-36): creation index, slot mapping, creation
time, activation time. -/
structure Frame where
  idx : Nat
  slots : List (String × Value)
  created : Nat
  last_active : Option Nat
  deriving DecidableEq, Repr

/-- Frame.__init__ (frames.py lines 14-27): `last_active` is `created` when
`switch_to` is passed, absent otherwise. -/
def Frame.init (idx : Nat) (slots : List (String × Value)) (created : Nat)
    (switch_to : Bool) : Frame :=
  { idx := idx, slots := slots, created := created,
    last_active := if switch_to then some created else none }

/-- Frame.__getitem__ (frames.py lines 32-33): `self.slots.get(key, None)`;
a missing key reads as None instead of raising. -/
def Frame.getItem (f : Frame) (key : String) : Option Value :=
  lookupKey key f.slots

/-- Python dict point update: replace the binding in place when the key is
present, append it otherwise. -/
def setAssoc (l : List (String × Value)) (key : String) (v : Value) :
    List (String × Value) :=
  match l with
  | [] => [(key, v)]
  | (k, w) :: rest =>
    if k = key then (key, v) :: rest else (k, w) :: setAssoc rest key v

/-- Frame.__setitem__ (frames.py lines 35-36). -/
def Frame.setItem (f : Frame) (key : String) (v : Value) : Frame :=
  { f with slots := setAssoc f.slots key v }

/-- FrameSet (frames.py lines 39-89): the frames list plus the active index. -/
structure FrameSet where
  frames : List Frame
  current_frame_idx : Nat
  deriving DecidableEq, Repr

/-- Iterating a FrameSet yields the keys of its dict payload, fixed forever by
`FrameSet.__init__` at "init_slots" and "created" (see the module comment). -/
def FrameSet.iterKeys : List String := ["init_slots", "created"]

/-- Python enumerate over the FrameSet iteration. -/
def pyEnumFrom : Nat → List String → List (Nat × String)
  | _, [] => []
  | n, s :: rest => (n, s) :: pyEnumFrom (n + 1) rest

def pyEnum (l : List String) : List (Nat × String) :=
  pyEnumFrom 0 l

/-- FrameSet.__init__ (frames.py lines 41-54): one initial frame built from
the framed-slot projection, at index 0, active, pre-activated. -/
def FrameSet.construct (init_slots : List (String × Slot)) (created : Nat) : FrameSet :=
  { frames := [Frame.init 0 (projectSlots init_slots) created true],
    current_frame_idx := 0 }

/-- FrameSet.add_frame (frames.py lines 64-75): projects the given mapping
through `get_framed_slots` and appends a frame indexed by the current length.
It does not touch `current_frame_idx`. -/
def FrameSet.add_frame (fs : FrameSet) (slots : List (String × PyObj))
    (created : Nat) (switch_to : Bool) : Except PyErr (FrameSet × Frame) := do
  let framed ← get_framed_slots slots
  let frame := Frame.init fs.frames.length framed created switch_to
  pure ({ fs with frames := fs.frames ++ [frame] }, frame)

/-- Result of FrameSet.activate_frame: the error raised, if any, together with
the state of the object afterwards.  The source mutates in place, so an
assignment made before a raising statement survives the exception. -/
structure ActivateResult where
  err : Option PyErr
  fs : FrameSet
  deriving DecidableEq, Repr

/-- FrameSet.activate_frame (frames.py lines 80-82).  Line 81 assigns
`current_frame_idx` first; line 82 then indexes the frames list, raising
IndexError when the index is out of bounds - after the first assignment has
already happened. -/
def FrameSet.activate_frame (fs : FrameSet) (idx : Nat) (timestamp : Nat) :
    ActivateResult :=
  if h : idx < fs.frames.length then
    { err := none,
      fs := { fs with
              current_frame_idx := idx,
              frames := fs.frames.set idx
                { fs.frames.get ⟨idx, h⟩ with last_active := some timestamp } } }
  else
    { err := some .indexError, fs := { fs with current_frame_idx := idx } }

/-- FrameSet.current_frame (frames.py lines 56-58):
`self.frames[self.current_frame_idx]`. -/
def FrameSet.current_frameE (fs : FrameSet) : Except PyErr Frame :=
  if h : fs.current_frame_idx < fs.frames.length then
    .ok (fs.frames.get ⟨fs.current_frame_idx, h⟩)
  else
    .error .indexError

/-- Frame indices are dense and increasing from the given start (the invariant
stated in spec section 3). -/
def denseFrom : Nat → List Frame → Bool
  | _, [] => true
  | n, f :: rest => decide (f.idx = n) && denseFrom (n + 1) rest

/-- Modelled from the spec: the DialogueStateTracker (a collaborator outside
this file) exposes the live slot mapping and owns/exposes the FrameSet (spec
section 6); `tracker.current_frame_idx` proxies the FrameSet field of the same
name. -/
structure Tracker where
  slots : List (String × Slot)
  frames : FrameSet
  deriving DecidableEq, Repr

def Tracker.current_frame_idx (t : Tracker) : Nat :=
  t.frames.current_frame_idx

/-- The fields of UserUttered that frames.py reads: the dialogue-act tag and
the timestamp.  Entities are received but never used by the branch logic. -/
structure UserUttered where
  intent : String
  timestamp : Nat
  deriving DecidableEq, Repr

/-- collections.Counter increment, keeping first-insertion key order. -/
def counterAdd (c : List (Nat × Nat)) (k : Nat) : List (Nat × Nat) :=
  match c with
  | [] => [(k, 1)]
  | (k0, n) :: rest =>
    if k0 = k then (k0, n + 1) :: rest else (k0, n) :: counterAdd rest k

/-- Stable insertion preserving descending key order (the element goes before
the first entry whose key is not larger, so earlier entries with equal keys
stay in front). -/
def insertDescBy {α : Type} (key : α → Nat) (x : α) : List α → List α
  | [] => [x]
  | y :: ys => if key x < key y then y :: insertDescBy key x ys else x :: y :: ys

/-- Stable descending sort by a Nat key, as CPython's stable
`sorted(..., reverse=True)` behaves on the key views used here. -/
def sortDescBy {α : Type} (key : α → Nat) : List α → List α
  | [] => []
  | x :: xs => insertDescBy key x (sortDescBy key xs)

/-- Counter.most_common(): entries sorted by count descending, ties kept in
insertion order. -/
def most_common (c : List (Nat × Nat)) : List (Nat × Nat) :=
  sortDescBy (fun p => p.2) c

/-- The for/break scan of handle_inform (frames.py lines 160-162): true when
some framed slot differs from the current frame, so the loop breaks; false
when the loop runs out, which triggers the for-else. -/
def informScan (t : Tracker) : List (String × Value) → Except PyErr Bool
  | [] => pure false
  | (key, _) :: rest => do
    let cur ← t.frames.current_frameE
    match lookupKey key t.slots with
    | none => .error .keyError
    | some s =>
      if cur.getItem key ≠ s.value then pure true
      else informScan t rest

/-- RuleBasedFrameTracker.handle_inform (frames.py lines 156-168).  The
for-else runs `add_frame` only when no framed slot differs, and hands it the
already-projected mapping of plain values. -/
def handle_inform (t : Tracker) (utt : UserUttered) : Except PyErr Tracker := do
  let framed ← get_framed_slots (liftSlots t.slots)
  let broke ← informScan t framed
  if broke then
    pure t
  else do
    let res ← t.frames.add_frame (rawSlots framed) utt.timestamp true
    pure { t with frames := res.1 }

/-- True when the projected value of this slot differs from what the current
frame holds for its key. -/
def slotDiffers (cur : Frame) (p : String × Value) : Bool :=
  decide (cur.getItem p.1 ≠ some p.2)

/-- Inner scan of handle_switch_frame (frames.py lines 134-138):
`for idx, frame in enumerate(tracker.frames)`.  Iterating the FrameSet yields
its dict keys, so `frame` is a str and `frame[key]` raises TypeError at the
first entry whose position is not the skipped current index. -/
def switchInner (cfi : Nat) (key : String) (v : Value) (counts : List (Nat × Nat)) :
    List (Nat × String) → Except PyErr (List (Nat × Nat))
  | [] => pure counts
  | (idx, s) :: rest =>
    if idx = cfi then switchInner cfi key v counts rest
    else do
      let w ← strGetItem s key
      if w = v then switchInner cfi key v (counterAdd counts idx) rest
      else switchInner cfi key v counts rest

/-- Outer scan of handle_switch_frame (frames.py lines 129-138): slots whose
projected value matches the current frame are skipped; the others go through
the inner scan. -/
def switchOuter (t : Tracker) (counts : List (Nat × Nat)) :
    List (String × Value) → Except PyErr (List (Nat × Nat))
  | [] => pure counts
  | (key, v) :: rest => do
    let cur ← t.frames.current_frameE
    if cur.getItem key = some v then switchOuter t counts rest
    else do
      let counts2 ← switchInner t.frames.current_frame_idx key v counts
        (pyEnum FrameSet.iterKeys)
      switchOuter t counts2 rest

/-- The key views computed by
`sorted(tracker.frames, key=lambda f: f.last_active, reverse=True)`: the
elements are the dict keys of the FrameSet (strs), so computing the first key
view raises AttributeError. -/
def keyedElems : List String → Except PyErr (List (Nat × String))
  | [] => pure []
  | s :: rest => do
    let k ← strAttrLastActive s
    let tail ← keyedElems rest
    pure ((k, s) :: tail)

/-- Recency fallback of handle_switch_frame (frames.py lines 148-154).
Computing the sort keys always raises; were it to succeed,
`most_recent_frames[0].idx` would again attribute-access a str, so the
continuation is that same AttributeError. -/
def fallbackRecent (t : Tracker) (ts : Nat) : Except PyErr Tracker := do
  let _ ← keyedElems FrameSet.iterKeys
  .error .attributeError

/-- Activation as called from the tracker branches: an error raised inside
activate_frame propagates to the caller. -/
def activateE (t : Tracker) (idx : Nat) (ts : Nat) : Except PyErr Tracker :=
  match t.frames.activate_frame idx ts with
  | { err := none, fs := fs2 } => pure { t with frames := fs2 }
  | { err := some e, fs := _ } => .error e

/-- RuleBasedFrameTracker.handle_switch_frame (frames.py lines 124-154). -/
def handle_switch_frame (t : Tracker) (utt : UserUttered) : Except PyErr Tracker := do
  let framed ← get_framed_slots (liftSlots t.slots)
  let counts ← switchOuter t [] framed
  match most_common counts with
  | (bidx, bcnt) :: _ =>
    if bcnt = framed.length then activateE t bidx utt.timestamp
    else fallbackRecent t utt.timestamp
  | [] => fallbackRecent t utt.timestamp

/-- Inner scan of handle_act_with_ref (frames.py lines 176-178): the iteration
again yields the dict keys of the FrameSet; `frame[key]` string-indexes a str
(TypeError), and the right operand `slot.value` would attribute-access a plain
value. -/
def refInner (key : String) (v : Value) (counts : List (Nat × Nat)) :
    List (Nat × String) → Except PyErr (List (Nat × Nat))
  | [] => pure counts
  | (idx, s) :: rest => do
    let w ← strGetItem s key
    let vv ← v.attrValue
    if w = vv then refInner key v (counterAdd counts idx) rest
    else refInner key v counts rest

/-- Outer scan of handle_act_with_ref (frames.py lines 175-178). -/
def refOuter (counts : List (Nat × Nat)) :
    List (String × Value) → Except PyErr (List (Nat × Nat))
  | [] => pure counts
  | (key, v) :: rest => do
    let counts2 ← refInner key v counts (pyEnum FrameSet.iterKeys)
    refOuter counts2 rest

/-- `tracker.frames.current_frame[key] = value`: point update of the active
frame inside the frames list. -/
def setCurrentFrameItem (t : Tracker) (key : String) (v : Value) :
    Except PyErr Tracker := do
  let cur ← t.frames.current_frameE
  pure { t with frames := { t.frames with
    frames := t.frames.frames.set t.frames.current_frame_idx (cur.setItem key v) } }

/-- The tie-break sort of handle_act_with_ref (frames.py lines 186-192):
`sorted(best_matches, key=lambda x: tracker.frames[x[0]].created,
reverse=True)`.  Here `tracker.frames[x[0]]` goes through
FrameSet.__getitem__, which does index the real frames list and raises
IndexError when out of range. -/
def bestByCreatedDesc (t : Tracker) (best : List (Nat × Nat)) :
    Except PyErr (List (Nat × Nat)) := do
  let keyed ← best.mapM (fun b =>
    match t.frames.frames[b.1]? with
    | some fr => Except.ok (fr.created, b)
    | none => (Except.error PyErr.indexError : Except PyErr (Nat × (Nat × Nat))))
  pure ((sortDescBy (fun p => p.1) keyed).map (fun p => p.2))

/-- RuleBasedFrameTracker.handle_act_with_ref (frames.py lines 170-196). -/
def handle_act_with_ref (t : Tracker) (utt : UserUttered) : Except PyErr Tracker := do
  let framed ← get_framed_slots (liftSlots t.slots)
  let counts ← refOuter [] framed
  match most_common counts with
  | [b1] =>
    if b1.2 = framed.length then
      setCurrentFrameItem t "ref" (Value.int b1.1)
    else pure t
  | b1 :: b2 :: rest =>
    if b1.2 = b2.2 ∧ b2.2 = framed.length then do
      let sortedBest ← bestByCreatedDesc t (b1 :: b2 :: rest)
      match sortedBest with
      | mr :: _ => setCurrentFrameItem t "ref" (Value.int mr.1)
      | [] => .error .indexError
    else pure t
  | [] => setCurrentFrameItem t "ref" (Value.int t.current_frame_idx)

/-- The dispatch list acts_with_ref (frames.py lines 107-109). -/
def acts_with_ref : List String :=
  ["affirm", "canthelp", "confirm", "hearmore", "inform", "moreinfo", "negate",
   "no_result", "offer", "request", "request_compare", "suggest", "switch_frame"]

/-- Default branch of update_frames (frames.py lines 117-120): copy every
projected slot into the current frame in place. -/
def defaultLoop (t : Tracker) : List (String × Value) → Except PyErr Tracker
  | [] => pure t
  | (key, v) :: rest => do
    let t2 ← setCurrentFrameItem t key v
    defaultLoop t2 rest

def defaultBranch (t : Tracker) : Except PyErr Tracker := do
  let framed ← get_framed_slots (liftSlots t.slots)
  defaultLoop t framed

/-- RuleBasedFrameTracker.update_frames (frames.py lines 94-122).  The source
additionally returns an always-empty event list, which carries no
information. -/
def update_frames (t : Tracker) (utt : UserUttered) : Except PyErr Tracker :=
  if utt.intent = "inform" then handle_inform t utt
  else if utt.intent = "switch_frame" then handle_switch_frame t utt
  else if acts_with_ref.contains utt.intent then handle_act_with_ref t utt
  else defaultBranch t

/-- Stated from the words of claims C3/C4 (spec section 4.2, item 3): the
number of framed slots of the projection on which a frame agrees. -/
def specMatchCount (framed : List (String × Value)) (f : Frame) : Nat :=
  (framed.filter (fun p => decide (f.getItem p.1 = some p.2))).length

/- Concrete states used by the per-claim theorems. -/

/-- C1 failing input: current frame holds city NYC, the utterance projects
city LA (the topic-shift inform scenario of spec section 8). -/
def c1Tracker : Tracker :=
  { slots := [("city", { value := some (Value.str "LA"), frame_slot := true })],
    frames :=
      { frames :=
          [{ idx := 0, slots := [("city", Value.str "NYC")], created := 1,
             last_active := some 1 }],
        current_frame_idx := 0 } }

/-- A fully consistent inform: the projection agrees with the current frame
(the consistent-inform scenario of spec section 8). -/
def c1AgreeTracker : Tracker :=
  { slots := [("city", { value := some (Value.str "NYC"), frame_slot := true })],
    frames :=
      { frames :=
          [{ idx := 0, slots := [("city", Value.str "NYC")], created := 1,
             last_active := some 1 }],
        current_frame_idx := 0 } }

/-- C2 counterexample input: the exact-switch scenario of spec section 8. -/
def c2Tracker : Tracker :=
  { slots := [("city", { value := some (Value.str "LA"), frame_slot := true })],
    frames :=
      { frames :=
          [{ idx := 0, slots := [("city", Value.str "NYC")], created := 1,
             last_active := some 1 },
           { idx := 1, slots := [("city", Value.str "LA")], created := 2,
             last_active := some 2 }],
        current_frame_idx := 0 } }

/-- Witness input for the amended C2. -/
def c2wTracker : Tracker :=
  { slots := [("price", { value := some (Value.str "low"), frame_slot := true })],
    frames :=
      { frames :=
          [{ idx := 0, slots := [("price", Value.str "high")], created := 1,
             last_active := some 1 }],
        current_frame_idx := 0 } }

/-- C3 counterexample input: a single full match on frame 1. -/
def c3Tracker : Tracker :=
  { slots := [("city", { value := some (Value.str "LA"), frame_slot := true })],
    frames :=
      { frames :=
          [{ idx := 0, slots := [("city", Value.str "NYC")], created := 1,
             last_active := some 1 },
           { idx := 1, slots := [("city", Value.str "LA")], created := 2,
             last_active := none }],
        current_frame_idx := 0 } }

/-- Witness input for the amended C3: an empty framed projection. -/
def c3wTracker : Tracker :=
  { slots := [("city", { value := none, frame_slot := true })],
    frames :=
      { frames :=
          [{ idx := 0, slots := [("city", Value.str "NYC")], created := 1,
             last_active := some 1 }],
        current_frame_idx := 0 } }

/-- C4 input: frames 1 and 2 both fully match the projected city LA, with
different created times (the two-full-matches scenario of spec section 8). -/
def c4Tracker : Tracker :=
  { slots := [("city", { value := some (Value.str "LA"), frame_slot := true })],
    frames :=
      { frames :=
          [{ idx := 0, slots := [("city", Value.str "NYC")], created := 1,
             last_active := some 1 },
           { idx := 1, slots := [("city", Value.str "LA")], created := 2,
             last_active := some 2 },
           { idx := 2, slots := [("city", Value.str "LA")], created := 3,
             last_active := some 3 }],
        current_frame_idx := 0 } }

/-- C5 failing input: the only slot is framed but has no value, so the framed
projection is empty. -/
def c5Tracker : Tracker :=
  { slots := [("city", { value := none, frame_slot := true })],
    frames :=
      { frames :=
          [{ idx := 0, slots := [("city", Value.str "NYC")], created := 1,
             last_active := some 1 }],
        current_frame_idx := 0 } }

/-- C6 input: a FrameSet with a single frame, so any index above 0 is out of
bounds. -/
def c6FrameSet : FrameSet :=
  { frames :=
      [{ idx := 0, slots := [("city", Value.str "NYC")], created := 1,
         last_active := some 1 }],
    current_frame_idx := 0 }

/-- C7 witness input. -/
def c7FrameSet : FrameSet :=
  { frames :=
      [{ idx := 0, slots := [("city", Value.str "NYC")], created := 1,
         last_active := some 1 }],
    current_frame_idx := 0 }

/-- C7 witness slots: one framed slot with a value, one unframed slot. -/
def c7Slots : List (String × Slot) :=
  [("city", { value := some (Value.str "LA"), frame_slot := true }),
   ("note", { value := some (Value.str "x"), frame_slot := false })]

/-- C8 witness input: two frames. -/
def c8FrameSet : FrameSet :=
  { frames :=
      [{ idx := 0, slots := [("city", Value.str "NYC")], created := 1,
         last_active := some 1 },
       { idx := 1, slots := [("city", Value.str "LA")], created := 2,
         last_active := none }],
    current_frame_idx := 0 }

/-- C9 witness input: a frame without the key "price". -/
def c9Frame : Frame :=
  { idx := 0, slots := [("city", Value.str "NYC")], created := 1,
    last_active := some 1 }

/-- C10 failing input: every frame has a present last_active, the claimed
precondition for totality. -/
def c10Tracker : Tracker :=
  { slots := [("dst", { value := some (Value.str "SFO"), frame_slot := true })],
    frames :=
      { frames :=
          [{ idx := 0, slots := [("dst", Value.str "BOS")], created := 1,
             last_active := some 1 },
           { idx := 1, slots := [("dst", Value.str "SFO")], created := 2,
             last_active := some 3 }],
        current_frame_idx := 0 } }

/- Helper lemmas shared by the per-claim theorems. -/

theorem exc_ok_bind {α β : Type} (a : α) (f : α → Except PyErr β) :
    (Except.ok a >>= f) = f a := rfl

theorem exc_err_bind {α β : Type} (e : PyErr) (f : α → Except PyErr β) :
    ((Except.error e : Except PyErr α) >>= f) = Except.error e := rfl

/-- On a mapping of genuine Slot objects, the embedded `get_framed_slots`
succeeds and computes the pure framed-slot projection. -/
theorem get_framed_slots_lift (l : List (String × Slot)) :
    get_framed_slots (liftSlots l) = Except.ok (projectSlots l) := by
  induction l with
  | nil => rfl
  | cons p rest ih =>
    obtain ⟨name, s⟩ := p
    show get_framed_slots ((name, PyObj.slotObj s) :: liftSlots rest) = _
    cases hf : s.frame_slot with
    | false =>
      simp only [get_framed_slots, PyObj.attrFrameSlot, exc_ok_bind, hf,
        Bool.false_eq_true, if_neg, ih, projectSlots]
      try rfl
    | true =>
      cases hv : s.value with
      | none =>
        simp only [get_framed_slots, PyObj.attrFrameSlot, PyObj.attrValue,
          exc_ok_bind, hf, hv, if_pos, ih, projectSlots]
        try rfl
      | some v =>
        simp only [get_framed_slots, PyObj.attrFrameSlot, PyObj.attrValue,
          exc_ok_bind, hf, hv, if_pos, ih, projectSlots]
        try rfl

theorem current_frameE_ok (fs : FrameSet)
    (h : fs.current_frame_idx < fs.frames.length) :
    fs.current_frameE = Except.ok (fs.frames.get ⟨fs.current_frame_idx, h⟩) := by
  unfold FrameSet.current_frameE
  rw [dif_pos h]

/-- The inner scan of handle_switch_frame always raises TypeError: the
iteration yields the two dict keys of the FrameSet, at most one of which is
skipped as the current index, and string-indexing the other raises. -/
theorem switchInner_pyEnum (cfi : Nat) (key : String) (v : Value)
    (counts : List (Nat × Nat)) :
    switchInner cfi key v counts (pyEnum FrameSet.iterKeys) =
      Except.error PyErr.typeError := by
  cases cfi with
  | zero => rfl
  | succ n => rfl

theorem switchOuter_raises (t : Tracker)
    (h : t.frames.current_frame_idx < t.frames.frames.length)
    (framed : List (String × Value)) (counts : List (Nat × Nat))
    (hd : framed.any
      (slotDiffers (t.frames.frames.get ⟨t.frames.current_frame_idx, h⟩)) = true) :
    switchOuter t counts framed = Except.error PyErr.typeError := by
  induction framed generalizing counts with
  | nil => simp at hd
  | cons p rest ih =>
    obtain ⟨key, v⟩ := p
    simp only [switchOuter, current_frameE_ok t.frames h, exc_ok_bind]
    by_cases hk :
        (t.frames.frames.get ⟨t.frames.current_frame_idx, h⟩).getItem key = some v
    · rw [if_pos hk]
      apply ih
      simp only [List.any_cons, slotDiffers, hk, Bool.or_eq_true,
        decide_eq_true_eq] at hd
      rcases hd with hd | hd
      · exact absurd rfl hd
      · exact hd
    · rw [if_neg hk, switchInner_pyEnum, exc_err_bind]

theorem switchOuter_clean (t : Tracker)
    (h : t.frames.current_frame_idx < t.frames.frames.length)
    (framed : List (String × Value)) (counts : List (Nat × Nat))
    (hd : framed.any
      (slotDiffers (t.frames.frames.get ⟨t.frames.current_frame_idx, h⟩)) = false) :
    switchOuter t counts framed = Except.ok counts := by
  induction framed generalizing counts with
  | nil => rfl
  | cons p rest ih =>
    obtain ⟨key, v⟩ := p
    simp only [List.any_cons, Bool.or_eq_false_iff] at hd
    have hk :
        (t.frames.frames.get ⟨t.frames.current_frame_idx, h⟩).getItem key = some v := by
      have := hd.1
      simp only [slotDiffers, decide_eq_false_iff_not, ne_eq, not_not] at this
      exact this
    simp only [switchOuter, current_frameE_ok t.frames h, exc_ok_bind]
    rw [if_pos hk]
    exact ih counts hd.2

/-- With a nonempty framed projection, handle_act_with_ref raises TypeError at
the first comparison, because the frame iteration yields the dict keys of the
FrameSet and `frame[key]` string-indexes a str. -/
theorem act_with_ref_raises_of_ne_nil (t : Tracker) (utt : UserUttered)
    (hne : projectSlots t.slots ≠ []) :
    handle_act_with_ref t utt = Except.error PyErr.typeError := by
  unfold handle_act_with_ref
  simp only [get_framed_slots_lift, exc_ok_bind]
  cases hp : projectSlots t.slots with
  | nil => exact absurd hp hne
  | cons p rest =>
    obtain ⟨key, v⟩ := p
    rfl

theorem denseFrom_append (l : List Frame) (a : Frame) (n : Nat)
    (hl : denseFrom n l = true) (ha : a.idx = n + l.length) :
    denseFrom n (l ++ [a]) = true := by
  induction l generalizing n with
  | nil =>
    simp only [List.length_nil, Nat.add_zero] at ha
    simp only [List.nil_append, denseFrom, Bool.and_eq_true, decide_eq_true_eq]
    exact ⟨ha, trivial⟩
  | cons f rest ih =>
    simp only [denseFrom, Bool.and_eq_true] at hl
    simp only [List.cons_append, denseFrom, Bool.and_eq_true]
    refine ⟨hl.1, ih (n + 1) hl.2 ?_⟩
    simp only [List.length_cons] at ha
    omega

theorem getq_set_self (l : List Frame) (i : Nat) (a : Frame)
    (h : i < l.length) : (l.set i a).get? i = some a := by
  induction l generalizing i with
  | nil => exact absurd h (Nat.not_lt_zero i)
  | cons f rest ih =>
    cases i with
    | zero => rfl
    | succ n => exact ih n (Nat.lt_of_succ_lt_succ h)

theorem getq_set_other (l : List Frame) (i j : Nat) (a : Frame)
    (hij : j ≠ i) : (l.set i a).get? j = l.get? j := by
  induction l generalizing i j with
  | nil => rfl
  | cons f rest ih =>
    cases i with
    | zero =>
      cases j with
      | zero => exact absurd rfl hij
      | succ m => rfl
    | succ n =>
      cases j with
      | zero => rfl
      | succ m => exact ih n m (fun hmn => hij (congrArg Nat.succ hmn))

theorem lookupKey_eq_none {α : Type} (key : String) (l : List (String × α))
    (h : ∀ p ∈ l, p.1 ≠ key) : lookupKey key l = none := by
  induction l with
  | nil => rfl
  | cons p rest ih =>
    obtain ⟨k, w⟩ := p
    have hk : k ≠ key := h (k, w) (List.mem_cons_self _ _)
    have hrest : ∀ q ∈ rest, q.1 ≠ key :=
      fun q hq => h q (List.mem_cons_of_mem _ hq)
    simp only [lookupKey]
    rw [if_neg hk]
    exact ih hrest

/- Per-claim theorems. -/

/-- C1 (code bug).  The claim says a topic-shift `inform` (some framed slot
differs from the current frame) appends one new frame from the projection and
makes it active, and a fully consistent `inform` does nothing.  The for-else
in handle_inform runs `add_frame` only when NO slot differs, so the code does
exactly the opposite: on the topic-shift input (current frame city NYC,
projection city LA) the tracker is returned unchanged, and on the consistent
input the add_frame call raises AttributeError because the already-projected
mapping of plain values is projected a second time. -/
theorem c1_inform_topic_shift_is_noop :
    update_frames c1Tracker { intent := "inform", timestamp := 5 } =
      Except.ok c1Tracker ∧
    update_frames c1AgreeTracker { intent := "inform", timestamp := 5 } =
      Except.error PyErr.attributeError :=
  ⟨rfl, rfl⟩

/-- C2 counterexample.  On the exact-switch scenario (current frame city NYC,
other frame city LA, projection city LA) the claim predicts that frame 1 is
activated; the code instead raises TypeError, because the matching loop
iterates the dict keys of the FrameSet and string-indexes them. -/
theorem c2_counterexample :
    update_frames c2Tracker { intent := "switch_frame", timestamp := 5 } =
      Except.error PyErr.typeError := rfl

/-- C2 (amended).  handle_switch_frame never activates any frame: whenever the
active index is in bounds, it raises TypeError if at least one framed slot of
the projection differs from the current frame (the match scan string-indexes
the dict keys of the FrameSet), and AttributeError otherwise - including an
empty projection - because the recency sort reads `last_active` off those
keys. -/
theorem c2_switch_frame_always_raises (t : Tracker) (utt : UserUttered)
    (h : t.frames.current_frame_idx < t.frames.frames.length) :
    ((projectSlots t.slots).any
        (slotDiffers (t.frames.frames.get ⟨t.frames.current_frame_idx, h⟩)) = true →
      handle_switch_frame t utt = Except.error PyErr.typeError) ∧
    ((projectSlots t.slots).any
        (slotDiffers (t.frames.frames.get ⟨t.frames.current_frame_idx, h⟩)) = false →
      handle_switch_frame t utt = Except.error PyErr.attributeError) := by
  constructor
  · intro hd
    unfold handle_switch_frame
    simp only [get_framed_slots_lift, exc_ok_bind]
    rw [switchOuter_raises t h (projectSlots t.slots) [] hd, exc_err_bind]
  · intro hd
    unfold handle_switch_frame
    simp only [get_framed_slots_lift, exc_ok_bind]
    rw [switchOuter_clean t h (projectSlots t.slots) [] hd]
    rfl

/-- Witness for the amended C2 at a concrete state with a differing framed
slot. -/
theorem c2_switch_frame_always_raises_witness :
    handle_switch_frame c2wTracker { intent := "switch_frame", timestamp := 9 } =
      Except.error PyErr.typeError :=
  (c2_switch_frame_always_raises c2wTracker
    { intent := "switch_frame", timestamp := 9 } (by decide)).1 (by decide)

/-- C3 counterexample.  With one framed slot (city LA) and frame 1 matching it
fully while frame 0 does not, the claim predicts the current frame's ref entry
is set to 1; the code raises TypeError before counting anything. -/
theorem c3_counterexample :
    update_frames c3Tracker { intent := "confirm", timestamp := 4 } =
      Except.error PyErr.typeError := rfl

/-- C3 (amended).  For every tracker whose active index is in bounds:
handle_act_with_ref raises TypeError whenever the framed projection is
nonempty (the matching loop iterates the dict keys of the FrameSet and
string-indexes them), and with an empty projection it sets the current frame's
ref entry to the tracker's own current frame index. -/
theorem c3_act_with_ref_behavior (t : Tracker) (utt : UserUttered)
    (h : t.frames.current_frame_idx < t.frames.frames.length) :
    (projectSlots t.slots ≠ [] →
      handle_act_with_ref t utt = Except.error PyErr.typeError) ∧
    (projectSlots t.slots = [] →
      handle_act_with_ref t utt = Except.ok { t with frames := { t.frames with
        frames := t.frames.frames.set t.frames.current_frame_idx
          ((t.frames.frames.get ⟨t.frames.current_frame_idx, h⟩).setItem "ref"
            (Value.int t.frames.current_frame_idx)) } }) := by
  constructor
  · exact act_with_ref_raises_of_ne_nil t utt
  · intro hp
    unfold handle_act_with_ref
    simp only [get_framed_slots_lift, exc_ok_bind, hp]
    show setCurrentFrameItem t "ref" (Value.int t.current_frame_idx) = _
    unfold setCurrentFrameItem
    simp only [current_frameE_ok t.frames h, exc_ok_bind]
    rfl

/-- Witness for the amended C3 at a concrete state with an empty framed
projection: the ref entry becomes a self-reference. -/
theorem c3_act_with_ref_behavior_witness :
    handle_act_with_ref c3wTracker { intent := "confirm", timestamp := 3 } =
      Except.ok { c3wTracker with frames := { c3wTracker.frames with frames :=
        [{ idx := 0, slots := [("city", Value.str "NYC"), ("ref", Value.int 0)],
           created := 1, last_active := some 1 }] } } :=
  (c3_act_with_ref_behavior c3wTracker { intent := "confirm", timestamp := 3 }
    (by decide)).2 rfl

/-- C4 counterexample.  Frames 1 and 2 both fully match the projected city LA
and were created at times 2 and 3; the claim predicts the current frame's ref
entry is set to 2, the most recently created of the tied full matches; the
code raises TypeError. -/
theorem c4_counterexample :
    update_frames c4Tracker { intent := "offer", timestamp := 5 } =
      Except.error PyErr.typeError := rfl

/-- C4 (amended).  Whenever two distinct frames both attain a full match count
(equal to the positive number of framed slots, counted as the claim counts
them), handle_act_with_ref raises TypeError and records no reference. -/
theorem c4_tie_full_match_raises (t : Tracker) (utt : UserUttered) (i j : Nat)
    (hi : i < t.frames.frames.length) (hj : j < t.frames.frames.length)
    (hij : i ≠ j)
    (hfi : specMatchCount (projectSlots t.slots) (t.frames.frames.get ⟨i, hi⟩) =
      (projectSlots t.slots).length)
    (hfj : specMatchCount (projectSlots t.slots) (t.frames.frames.get ⟨j, hj⟩) =
      (projectSlots t.slots).length)
    (hpos : 0 < (projectSlots t.slots).length) :
    handle_act_with_ref t utt = Except.error PyErr.typeError := by
  apply act_with_ref_raises_of_ne_nil
  intro hnil
  rw [hnil] at hpos
  exact Nat.lt_irrefl 0 hpos

/-- Witness for the amended C4 on the two-full-matches state. -/
theorem c4_tie_full_match_raises_witness :
    handle_act_with_ref c4Tracker { intent := "offer", timestamp := 5 } =
      Except.error PyErr.typeError :=
  c4_tie_full_match_raises c4Tracker { intent := "offer", timestamp := 5 } 1 2
    (by decide) (by decide) (by decide) (by decide) (by decide) (by decide)

/-- C5 (code bug).  On an empty framed projection the claim says `inform` is a
no-op; the for-else fires vacuously and the code appends a new empty frame
(index 1, created and last_active at the utterance timestamp), growing the
frame count by one while the active index stays 0. -/
theorem c5_empty_inform_appends_frame :
    update_frames c5Tracker { intent := "inform", timestamp := 7 } =
      Except.ok { c5Tracker with frames := { c5Tracker.frames with frames :=
        c5Tracker.frames.frames ++
          [{ idx := 1, slots := [], created := 7, last_active := some 7 }] } } :=
  rfl

/-- C6 counterexample.  Activating index 5 of a one-frame FrameSet fails with
IndexError, but the FrameSet is NOT unchanged: `current_frame_idx` was already
assigned before the failing list access. -/
theorem c6_counterexample :
    (c6FrameSet.activate_frame 5 9).err = some PyErr.indexError ∧
    (c6FrameSet.activate_frame 5 9).fs ≠ c6FrameSet := by
  exact ⟨rfl, by decide⟩

/-- C6 (amended).  For every index at or above the frame count,
activate_frame fails with IndexError, and on that failure `current_frame_idx`
has already been set to the out-of-bounds index while no frame changed: the
two updates are sequenced, not atomic. -/
theorem c6_activate_oob_behavior (fs : FrameSet) (idx : Nat) (ts : Nat)
    (h : fs.frames.length ≤ idx) :
    fs.activate_frame idx ts =
      { err := some PyErr.indexError,
        fs := { fs with current_frame_idx := idx } } := by
  unfold FrameSet.activate_frame
  split
  · rename_i h2
    exact absurd h2 (Nat.not_lt.mpr h)
  · rfl

/-- Witness for the amended C6. -/
theorem c6_activate_oob_behavior_witness :
    c6FrameSet.activate_frame 3 7 =
      { err := some PyErr.indexError,
        fs := { c6FrameSet with current_frame_idx := 3 } } :=
  c6_activate_oob_behavior c6FrameSet 3 7 (by decide)

/-- C7 (confirmed).  On a mapping of genuine Slot objects, add_frame appends
exactly one frame: the new frame carries the framed-slot projection, its index
is the prior frame count, with switch_to true its last_active equals the given
creation time, `current_frame_idx` is untouched (the returned FrameSet differs
from the input only in the extended frames list), and dense increasing indices
are preserved. -/
theorem c7_add_frame_spec (fs : FrameSet) (slots : List (String × Slot))
    (created : Nat) (sw : Bool) :
    fs.add_frame (liftSlots slots) created sw =
      Except.ok
        ({ fs with frames := fs.frames ++
            [Frame.init fs.frames.length (projectSlots slots) created sw] },
          Frame.init fs.frames.length (projectSlots slots) created sw) ∧
    (Frame.init fs.frames.length (projectSlots slots) created sw).idx =
      fs.frames.length ∧
    (sw = true →
      (Frame.init fs.frames.length (projectSlots slots) created sw).last_active =
        some created) ∧
    (denseFrom 0 fs.frames = true →
      denseFrom 0 (fs.frames ++
        [Frame.init fs.frames.length (projectSlots slots) created sw]) = true) := by
  refine ⟨?_, rfl, ?_, ?_⟩
  · unfold FrameSet.add_frame
    simp only [get_framed_slots_lift, exc_ok_bind]
    rfl
  · intro hsw
    simp [Frame.init, hsw]
  · intro hd
    refine denseFrom_append fs.frames _ 0 hd ?_
    simp [Frame.init]

/-- Witness for C7 at a concrete FrameSet and slot mapping with switch_to
true. -/
theorem c7_add_frame_spec_witness :
    c7FrameSet.add_frame (liftSlots c7Slots) 4 true =
      Except.ok
        ({ c7FrameSet with frames := c7FrameSet.frames ++
            [Frame.init c7FrameSet.frames.length (projectSlots c7Slots) 4 true] },
          Frame.init c7FrameSet.frames.length (projectSlots c7Slots) 4 true) ∧
    (Frame.init c7FrameSet.frames.length (projectSlots c7Slots) 4 true).last_active =
      some 4 ∧
    denseFrom 0 (c7FrameSet.frames ++
      [Frame.init c7FrameSet.frames.length (projectSlots c7Slots) 4 true]) = true := by
  have h := c7_add_frame_spec c7FrameSet c7Slots 4 true
  exact ⟨h.1, h.2.2.1 rfl, h.2.2.2 (by decide)⟩

/-- C8 (confirmed).  For an in-bounds index, activate_frame succeeds, sets the
active index, overwrites the target frame's last_active with the timestamp
while keeping its idx, slots and created, and leaves every other frame
untouched. -/
theorem c8_activate_in_bounds (fs : FrameSet) (i : Nat) (ts : Nat)
    (h : i < fs.frames.length) :
    (fs.activate_frame i ts).err = none ∧
    (fs.activate_frame i ts).fs.current_frame_idx = i ∧
    (fs.activate_frame i ts).fs.frames.get? i =
      some { fs.frames.get ⟨i, h⟩ with last_active := some ts } ∧
    ∀ j : Nat, j ≠ i → (fs.activate_frame i ts).fs.frames.get? j = fs.frames.get? j := by
  have hact : fs.activate_frame i ts =
      { err := none,
        fs := { fs with
                current_frame_idx := i,
                frames := fs.frames.set i
                  { fs.frames.get ⟨i, h⟩ with last_active := some ts } } } := by
    unfold FrameSet.activate_frame
    split
    · rfl
    · rename_i h2
      exact absurd h h2
  rw [hact]
  refine ⟨rfl, rfl, ?_, ?_⟩
  · exact getq_set_self fs.frames i _ h
  · intro j hj
    exact getq_set_other fs.frames i j _ hj

/-- Witness for C8: activating frame 1 of a two-frame set. -/
theorem c8_activate_in_bounds_witness :
    (c8FrameSet.activate_frame 1 6).err = none ∧
    (c8FrameSet.activate_frame 1 6).fs.current_frame_idx = 1 ∧
    (c8FrameSet.activate_frame 1 6).fs.frames.get? 1 =
      some { idx := 1, slots := [("city", Value.str "LA")], created := 2,
             last_active := some 6 } ∧
    (c8FrameSet.activate_frame 1 6).fs.frames.get? 0 = c8FrameSet.frames.get? 0 := by
  have h := c8_activate_in_bounds c8FrameSet 1 6 (by decide)
  exact ⟨h.1, h.2.1, h.2.2.1, h.2.2.2 0 (by decide)⟩

/-- C9 (confirmed).  Reading a key that is bound nowhere in a frame's slot
mapping through Frame.getItem returns none rather than failing, and therefore
never equals `some v` for a present projected value v - the comparison shape
(`frame[key] == value`) through which a frame could count as a match in the
switch_frame and reference branches. -/
theorem c9_missing_key_reads_none (f : Frame) (key : String)
    (h : ∀ p ∈ f.slots, p.1 ≠ key) :
    f.getItem key = none ∧ ∀ v : Value, f.getItem key ≠ some v := by
  have hnone : f.getItem key = none := lookupKey_eq_none key f.slots h
  refine ⟨hnone, fun v hv => ?_⟩
  rw [hnone] at hv
  exact Option.noConfusion hv

/-- Witness for C9: a frame holding only city has no price. -/
theorem c9_missing_key_reads_none_witness :
    c9Frame.getItem "price" = none ∧
    c9Frame.getItem "price" ≠ some (Value.str "low") := by
  have h := c9_missing_key_reads_none c9Frame "price" (by decide)
  exact ⟨h.1, h.2 (Value.str "low")⟩

/-- C10 (code bug).  The claim says that when every frame has a present
last_active, handle_switch_frame is total and ends by activating exactly one
frame.  On a state satisfying that precondition the code still raises
TypeError, because the match scan iterates the dict keys of the FrameSet
rather than its frames (and the recency fallback would raise AttributeError
the same way).  The last conjunct records the situation the claim points at:
a frame built with switch_to false indeed has no last_active. -/
theorem c10_switch_crashes_despite_present_last_active :
    c10Tracker.frames.frames.all (fun f => f.last_active.isSome) = true ∧
    handle_switch_frame c10Tracker { intent := "switch_frame", timestamp := 6 } =
      Except.error PyErr.typeError ∧
    (Frame.init 2 [] 9 false).last_active = none :=
  ⟨rfl, rfl, rfl⟩

end RasaFrames
